import Mathlib

/-!
Verification of the entity filtering and normalization pipeline of the
wesense home-assistant ingester.

The Python sources are shallowly embedded: pure functions become Lean
functions over `String`, `ℚ` (for Python floats) and `ℤ` (for unix
timestamps); the per-entity decision cache of `EntityFilter` becomes
explicit state passing over an association list; compiled case-insensitive
regex patterns become their search functions `String → Bool`; the external
reverse-geocoder becomes an oracle parameter `ℚ → ℚ → Option GeoResult`
(returning `none` both when the library is missing and when the lookup
fails, since `reverse_geocode` catches every exception and returns `None`).
-/

namespace WeSense

/-- Subset of a Home Assistant entity registry record used by the filter and
transformer (`EntityMetadata.get_entity_info`); absent fields default to
the empty string, mirroring `entity_info.get(..., "")`. -/
structure EntityInfo where
  manufacturer : String := ""
  platform : String := ""

/-- The attribute fields of a Home Assistant state dict that the filter and
transformer read (`state.get("attributes", {})`); `device_class` and
`unit_of_measurement` default to `""` as in `attributes.get(..., "")`,
coordinates are absent unless the integration embeds them. -/
structure Attributes where
  device_class : String := ""
  unit_of_measurement : String := ""
  latitude : Option ℚ := none
  longitude : Option ℚ := none
  altitude : Option ℚ := none

/-- A Home Assistant state dict as consumed by `should_ingest`:
`state.get("state")` (which may be absent/`None`) and the attributes. -/
structure HAState where
  state : Option String := none
  attributes : Attributes := {}

/-- Models Python `float(s)` succeeding on plain decimal literals: optional
sign, at least one digit, at most one decimal point, no other characters.
(The exotic forms `float` also accepts — exponents, `inf`, `nan`, leading
whitespace — do not occur in any input the claims are evaluated at.) -/
def isFloatString (s : String) : Bool :=
  let cs := s.data
  let cs := match cs with
    | '+' :: t => t
    | '-' :: t => t
    | other => other
  cs.any Char.isDigit && cs.all (fun c => c.isDigit || c = '.') &&
    (cs.filter (fun c => c = '.')).length ≤ 1

/-- Python `str.lower()`, character-wise (all strings in this development
are ASCII, where `Char.toLower` and Python agree). -/
def strToLower (s : String) : String :=
  ⟨s.data.map Char.toLower⟩

/-- Filter configuration (`FilterConfig` dataclass in `config.py`).
`exclude_entity_patterns` holds the compiled case-insensitive regex
patterns as their search functions (`re.compile(p, re.IGNORECASE).search`
truthiness), since `EntityFilter.__init__` compiles the configured strings
before use. -/
structure FilterConfig where
  mode : String := "denylist"
  include_domains : List String := ["sensor", "binary_sensor"]
  include_device_classes : List String := []
  exclude_entity_patterns : List (String → Bool) := []
  exclude_integrations : List String := []
  exclude_manufacturers : List String := []
  exclude_entities : List String := []
  include_entities : List String := []

/-- The `EntityFilter` object after `__init__`: the configured lists with
the lower-casing `__init__` applies to device classes, integrations and
manufacturers, plus the optional metadata. Membership in the Python sets
is modelled by list membership (the lists act as their underlying sets). -/
structure EntityFilter where
  mode : String
  exclude_patterns : List (String → Bool)
  include_domains : List String
  include_device_classes : List String
  exclude_integrations : List String
  exclude_manufacturers : List String
  exclude_entities : List String
  include_entities : List String
  metadata : Option (String → EntityInfo)

/-- `EntityFilter.__init__`: compile-and-store patterns, lower-case the
device-class / integration / manufacturer lists, keep the entity id lists
verbatim. -/
def mkEntityFilter (config : FilterConfig) (metadata : Option (String → EntityInfo)) :
    EntityFilter where
  mode := config.mode
  exclude_patterns := config.exclude_entity_patterns
  include_domains := config.include_domains
  include_device_classes := config.include_device_classes.map strToLower
  exclude_integrations := config.exclude_integrations.map strToLower
  exclude_manufacturers := config.exclude_manufacturers.map strToLower
  exclude_entities := config.exclude_entities
  include_entities := config.include_entities
  metadata := metadata

/-- `EntityFilter._matches_include_list` glob matching: the source builds
`pattern.replace(".", "\\.").replace("*", ".*")` and runs
`re.match(regex, entity_id, re.IGNORECASE)`. This function is the
semantics of that regex on patterns whose characters are regex-literal
after those two replacements: literal characters match case-insensitively,
`*` matches any run of characters, the match is anchored at the start of
the entity id but — because `re.match` is not `re.fullmatch` — not at the
end: an exhausted pattern accepts with any remainder of the id left over. -/
def reMatchGlob : List Char → List Char → Bool
  | [], _ => true
  | p :: ps, s =>
    if p = '*' then
      (s.tails).any (fun s' => reMatchGlob ps s')
    else
      match s with
      | [] => false
      | c :: s' => p.toLower == c.toLower && reMatchGlob ps s'

/-- Full-string glob matching as the spec describes it ("full-string match
— not substring"): identical to `reMatchGlob` except that an exhausted
pattern requires the entity id to be exhausted too. Kept only to compare
the spec's wording against the source's `re.match` behaviour. -/
def specGlobFullMatch : List Char → List Char → Bool
  | [], s => s.isEmpty
  | p :: ps, s =>
    if p = '*' then
      (s.tails).any (fun s' => specGlobFullMatch ps s')
    else
      match s with
      | [] => false
      | c :: s' => p.toLower == c.toLower && specGlobFullMatch ps s'

/-- `EntityFilter._matches_include_list`: exact membership in the include
set, else any include entry containing `*` whose glob regex matches. -/
def matchesIncludeList (f : EntityFilter) (entity_id : String) : Bool :=
  f.include_entities.contains entity_id ||
    f.include_entities.any (fun p =>
      p.data.contains '*' && reMatchGlob p.data entity_id.data)

/-- The shared tail of `_evaluate_filters` steps 7–8: reject sentinel or
absent states, then require `float(state_value)` to succeed. -/
def validNumericState (state_value : Option String) : Bool :=
  match state_value with
  | none => false
  | some sv =>
    if sv = "unknown" || sv = "unavailable" then false else isFloatString sv

/-- `EntityFilter._evaluate_filters`: allowlist short-circuit, then the
ordered denylist checks 0–8 exactly as in the source. -/
def evaluateFilters (f : EntityFilter) (entity_id : String) (state : HAState) : Bool :=
  let attributes := state.attributes
  if f.mode = "allowlist" then
    matchesIncludeList f entity_id
  else
    -- 0. explicit include bypass (still validates state)
    if f.include_entities.contains entity_id then
      validNumericState state.state
    -- 1. explicit exclude list
    else if f.exclude_entities.contains entity_id then
      false
    -- 2. regex pattern exclusions
    else if f.exclude_patterns.any (fun p => p entity_id) then
      false
    -- 3./4. manufacturer and integration exclusion when metadata is present
    else if (match f.metadata with
        | some m =>
          let info := m entity_id
          let manufacturer := strToLower info.manufacturer
          manufacturer ≠ "" && f.exclude_manufacturers.contains manufacturer
        | none => false) then
      false
    else if (match f.metadata with
        | some m =>
          let info := m entity_id
          let platform := strToLower info.platform
          platform ≠ "" && f.exclude_integrations.contains platform
        | none => false) then
      false
    else
      -- 5. domain inclusion
      -- `entity_id.split(".")[0] if "." in entity_id else ""`: the part of
      -- the id before the first dot
      let domain := if entity_id.data.contains '.'
        then String.mk (entity_id.data.takeWhile (fun c => c ≠ '.')) else ""
      if f.include_domains ≠ [] && !f.include_domains.contains domain then
        false
      else
        -- 6. device class inclusion
        let device_class := strToLower attributes.device_class
        if f.include_device_classes ≠ [] &&
            (device_class = "" || !f.include_device_classes.contains device_class) then
          false
        else
          -- 7./8. state validity and numeric parse
          validNumericState state.state

/-- The `_cached_decisions` dict of an `EntityFilter` instance, as an
association list (keys are inserted at most once, so `List.lookup`
coincides with dict lookup). -/
abbrev DecisionCache := List (String × Bool)

/-- `EntityFilter.should_ingest`: consult the cache first, otherwise
evaluate the filters and cache the decision. Returns the decision and the
updated cache. -/
def should_ingest (f : EntityFilter) (cache : DecisionCache) (entity_id : String)
    (state : HAState) : Bool × DecisionCache :=
  match cache.lookup entity_id with
  | some b => (b, cache)
  | none =>
    let decision := evaluateFilters f entity_id state
    (decision, (entity_id, decision) :: cache)

end WeSense

namespace WeSense

/-- C3: on one filter instance, a second `should_ingest` call for the same
entity id returns the same boolean as the first, for every pair of state
payloads: the first decision is cached per entity id and later state
changes never invalidate it. -/
theorem should_ingest_cache_sticky (f : EntityFilter) (cache : DecisionCache)
    (entity_id : String) (s1 s2 : HAState) :
    (should_ingest f (should_ingest f cache entity_id s1).2 entity_id s2).1 =
      (should_ingest f cache entity_id s1).1 := by
  unfold should_ingest
  cases h : cache.lookup entity_id with
  | some b => simp [h]
  | none => simp [h, List.lookup]

end WeSense

namespace WeSense

/-- Concrete filter for exercising the exclude-pattern claims: denylist
mode, one compiled exclude pattern (the case-insensitive search for the
regex `w`, which matches any entity id containing a `w`), and one
explicitly included entity. -/
def c1Filter : EntityFilter :=
  mkEntityFilter
    { mode := "denylist"
      exclude_entity_patterns := [fun s => s.data.any (fun c => c.toLower == 'w')]
      include_entities := ["sensor.wesense_1"] }
    none

/-- A state payload with a plain numeric state value. -/
def numericState : HAState := { state := some "1.0" }

/-- C1 is false as stated: an entity id that matches a configured exclude
pattern is nevertheless ingested when it is also in the explicit
include-entities set, because `_evaluate_filters` checks the include set
(step 0) before the regex exclusions (step 2). -/
theorem c1_counterexample :
    c1Filter.exclude_patterns.any (fun p => p "sensor.wesense_1") = true ∧
      (should_ingest c1Filter [] "sensor.wesense_1" numericState).1 = true := by
  constructor <;> rfl

/-- C1 (amended): in denylist mode, an entity id that is not in the
explicit include-entities set and matches at least one configured exclude
pattern is rejected by `should_ingest` (on a fresh cache), regardless of
the state payload, the other configured lists and the metadata. -/
theorem exclude_pattern_rejects (f : EntityFilter) (entity_id : String) (state : HAState)
    (hmode : f.mode ≠ "allowlist")
    (hinc : entity_id ∉ f.include_entities)
    (hpat : ∃ p ∈ f.exclude_patterns, p entity_id = true) :
    (should_ingest f [] entity_id state).1 = false := by
  unfold should_ingest evaluateFilters
  by_cases hex : entity_id ∈ f.exclude_entities <;>
    simp [List.lookup, hmode, hinc, hex, List.any_eq_true, hpat]

/-- Witness for the amended C1 at a concrete input: `sensor.other_w`
matches the exclude pattern, is not explicitly included, and is rejected. -/
theorem exclude_pattern_rejects_witness :
    (should_ingest c1Filter [] "sensor.other_w" numericState).1 = false :=
  exclude_pattern_rejects c1Filter "sensor.other_w" numericState
    (by decide) (by decide)
    ⟨fun s => s.data.any (fun c => c.toLower == 'w'), List.Mem.head _, rfl⟩

/-- Concrete allowlist filter with a single glob include entry. -/
def c2Filter : EntityFilter :=
  mkEntityFilter { mode := "allowlist", include_entities := ["sensor.a*b"] } none

/-- C2 is false as stated: in allowlist mode the glob match is anchored at
the start only (`re.match`, not `re.fullmatch`), so `sensor.axbc` is
admitted by the entry `sensor.a*b` although it neither equals any include
entry nor full-string glob-matches one (the id goes on past the final
`b`). -/
theorem c2_counterexample :
    (should_ingest c2Filter [] "sensor.axbc" {}).1 = true ∧
      c2Filter.include_entities.contains "sensor.axbc" = false ∧
      c2Filter.include_entities.all
        (fun p => !specGlobFullMatch p.data "sensor.axbc".data) = true :=
  ⟨rfl, rfl, rfl⟩

/-- C2 (amended): in allowlist mode, `should_ingest` (on a fresh cache)
returns true iff the entity id is exactly in the include set
(case-sensitively) or some include entry containing `*` glob-matches a
prefix of the entity id (case-insensitive, anchored at the start only,
`*` standing for any run of characters); no other filter checks apply and
the state payload never affects the decision. -/
theorem allowlist_decision (f : EntityFilter) (entity_id : String) (s s' : HAState)
    (hmode : f.mode = "allowlist") :
    ((should_ingest f [] entity_id s).1 = true ↔
      entity_id ∈ f.include_entities ∨
        ∃ p ∈ f.include_entities, p.data.contains '*' = true ∧
          reMatchGlob p.data entity_id.data = true) ∧
    (should_ingest f [] entity_id s).1 = (should_ingest f [] entity_id s').1 := by
  unfold should_ingest evaluateFilters matchesIncludeList
  simp [List.lookup, hmode, List.any_eq_true]

/-- Witness for the amended C2 at a concrete input. -/
theorem allowlist_decision_witness :
    ((should_ingest c2Filter [] "sensor.axbc" {}).1 = true ↔
      "sensor.axbc" ∈ c2Filter.include_entities ∨
        ∃ p ∈ c2Filter.include_entities, p.data.contains '*' = true ∧
          reMatchGlob p.data "sensor.axbc".data = true) ∧
    (should_ingest c2Filter [] "sensor.axbc" {}).1 =
      (should_ingest c2Filter [] "sensor.axbc" numericState).1 :=
  allowlist_decision c2Filter "sensor.axbc" {} numericState rfl

end WeSense

namespace WeSense

/-- `READING_UNITS` from `utils/reading_types.py`: the WeSense standard
unit for each reading type. -/
def READING_UNITS : List (String × String) :=
  [("temperature", "°C"), ("humidity", "%"), ("pressure", "hPa"),
   ("co2", "ppm"), ("co", "ppm"),
   ("pm1_0", "µg/m³"), ("pm2_5", "µg/m³"), ("pm10", "µg/m³"),
   ("voc", "index"), ("no2", "ppb"), ("o3", "ppb"), ("so2", "ppb"),
   ("aqi", "index"), ("light_level", "lux"), ("battery_level", "%"),
   ("voltage", "V"), ("current", "A"), ("power", "W"), ("energy", "kWh"),
   ("sound_level", "dB"), ("rssi", "dBm"), ("distance", "m"),
   ("speed", "m/s"), ("wind_speed", "m/s"), ("precipitation", "mm"),
   ("precipitation_intensity", "mm/h")]

/-- `UNIT_CONVERSIONS` from `utils/reading_types.py`: conversions from
Home Assistant units to WeSense standard units, keyed by
`(from_unit, to_unit)`. Python floats become the exact rationals of their
decimal literals. -/
def UNIT_CONVERSIONS : List ((String × String) × (ℚ → ℚ)) :=
  [(("°F", "°C"), fun x => (x - 32) * 5 / 9),
   (("K", "°C"), fun x => x - 273.15),
   (("mbar", "hPa"), fun x => x),
   (("inHg", "hPa"), fun x => x * 33.8639),
   (("mmHg", "hPa"), fun x => x * 1.33322),
   (("psi", "hPa"), fun x => x * 68.9476),
   (("Pa", "hPa"), fun x => x / 100),
   (("kPa", "hPa"), fun x => x * 10),
   (("Wh", "kWh"), fun x => x / 1000),
   (("MWh", "kWh"), fun x => x * 1000),
   (("cm", "m"), fun x => x / 100),
   (("mm", "m"), fun x => x / 1000),
   (("km", "m"), fun x => x * 1000),
   (("ft", "m"), fun x => x * 0.3048),
   (("in", "m"), fun x => x * 0.0254),
   (("mi", "m"), fun x => x * 1609.34),
   (("km/h", "m/s"), fun x => x / 3.6),
   (("mph", "m/s"), fun x => x * 0.44704),
   (("kn", "m/s"), fun x => x * 0.514444),
   (("ft/s", "m/s"), fun x => x * 0.3048)]

/-- `convert_unit` from `utils/reading_types.py`: identity when the units
are equal or no converter is registered for the pair, otherwise the
registered converter. -/
def convert_unit (value : ℚ) (from_unit to_unit : String) : ℚ :=
  if from_unit = to_unit then value
  else
    match UNIT_CONVERSIONS.lookup (from_unit, to_unit) with
    | some converter => converter value
    | none => value

/-- `get_standard_unit`: `READING_UNITS.get(reading_type, "")`. -/
def get_standard_unit (reading_type : String) : String :=
  (READING_UNITS.lookup reading_type).getD ""

/-- Python 3 `round` ties-to-even on an exact rational. -/
def roundHalfEven (x : ℚ) : ℤ :=
  let n : ℤ := ⌊x⌋
  let r : ℚ := x - n
  if r < 1 / 2 then n
  else if 1 / 2 < r then n + 1
  else if n % 2 = 0 then n else n + 1

/-- Python `round(value, 4)` on the rational model of a float. -/
def roundTo4 (x : ℚ) : ℚ :=
  (roundHalfEven (x * 10000) : ℚ) / 10000

/-- The value/unit portion of `Transformer.transform` (lines 75–79 and the
measurement entry of lines 119–128): convert the value to the standard
unit when a hub unit is present and differs from a non-empty standard
unit, then publish `round(value, 4)` labelled with
`standard_unit or ha_unit`. -/
def transformUnitValue (reading_type ha_unit : String) (value : ℚ) : ℚ × String :=
  let standard_unit := get_standard_unit reading_type
  let value :=
    if ha_unit ≠ "" ∧ standard_unit ≠ "" ∧ ha_unit ≠ standard_unit then
      convert_unit value ha_unit standard_unit
    else value
  (roundTo4 value, if standard_unit ≠ "" then standard_unit else ha_unit)

/-- If an association-list lookup succeeds, the key is among the stored
keys. -/
theorem lookup_mem_keys {α β : Type} [BEq α] [LawfulBEq α] {l : List (α × β)}
    {k : α} {v : β} (h : l.lookup k = some v) : k ∈ l.map Prod.fst := by
  induction l with
  | nil => simp [List.lookup] at h
  | cons p t ih =>
    cases hk : k == p.1 with
    | true => simp [eq_of_beq hk]
    | false =>
      simp only [List.lookup, hk] at h
      exact List.mem_cons_of_mem _ (ih h)

end WeSense

namespace WeSense

/-- C8: `convert` returns the value unchanged when the units are equal or
no converter is registered for the pair, and otherwise applies the
registered converter; the function is total, so no input has an error
path. -/
theorem convert_unit_characterization (value : ℚ) (from_unit to_unit : String) :
    (from_unit = to_unit → convert_unit value from_unit to_unit = value) ∧
    (UNIT_CONVERSIONS.lookup (from_unit, to_unit) = none →
      convert_unit value from_unit to_unit = value) ∧
    (∀ f, from_unit ≠ to_unit → UNIT_CONVERSIONS.lookup (from_unit, to_unit) = some f →
      convert_unit value from_unit to_unit = f value) := by
  refine ⟨fun h => by simp [convert_unit, h], fun h => ?_,
    fun f hne h => by simp [convert_unit, hne, h]⟩
  by_cases he : from_unit = to_unit
  · simp [convert_unit, he]
  · simp [convert_unit, he, h]

/-- Witness for C8 at concrete inputs: equal units, an unregistered pair,
and the Fahrenheit→Celsius converter. -/
theorem convert_unit_characterization_witness :
    convert_unit 5 "hPa" "hPa" = 5 ∧ convert_unit 5 "xyz" "abc" = 5 ∧
      convert_unit 100 "°F" "°C" = (100 - 32) * 5 / 9 :=
  ⟨(convert_unit_characterization 5 "hPa" "hPa").1 rfl,
   (convert_unit_characterization 5 "xyz" "abc").2.1 rfl,
   (convert_unit_characterization 100 "°F" "°C").2.2 _ (by decide) rfl⟩

/-- C4 is false as stated: `("°F", "°C")` is a registered conversion pair,
but the reverse pair is not registered, so the "round trip" silently
passes the Celsius value back unchanged: starting from 32 °F it returns
0, not approximately 32. -/
theorem c4_counterexample :
    (("°F", "°C") ∈ UNIT_CONVERSIONS.map Prod.fst) ∧
      convert_unit (convert_unit 32 "°F" "°C") "°C" "°F" = 0 ∧ (32 : ℚ) ≠ 0 := by
  refine ⟨by simp [UNIT_CONVERSIONS], ?_, by norm_num⟩
  show ((32 : ℚ) - 32) * 5 / 9 = 0
  norm_num

/-- C4 (amended): for every registered conversion pair `(A, B)` the
reverse pair `(B, A)` is not registered, so
`convert(convert(x, A, B), B, A)` equals the forward conversion
`convert(x, A, B)` — the outer call passes its argument through unchanged
instead of inverting. The round trip therefore recovers `x` only for
pairs whose converter is the identity (such as mbar→hPa). -/
theorem unit_conversion_no_reverse (A B : String) (f : ℚ → ℚ)
    (hlook : UNIT_CONVERSIONS.lookup (A, B) = some f) (x : ℚ) :
    convert_unit (convert_unit x A B) B A = convert_unit x A B := by
  -- no conversion target ever occurs as a conversion source in the table
  have hrev : ∀ q ∈ UNIT_CONVERSIONS.map Prod.fst,
      ∀ q' ∈ UNIT_CONVERSIONS.map Prod.fst, q'.1 ≠ q.2 := by decide
  have hnone : UNIT_CONVERSIONS.lookup (B, A) = none := by
    cases hly : UNIT_CONVERSIONS.lookup (B, A) with
    | none => rfl
    | some g =>
      exact absurd rfl
        (hrev (A, B) (lookup_mem_keys hlook) (B, A) (lookup_mem_keys hly))
  by_cases hba : B = A
  · simp [convert_unit, hba]
  · simp [convert_unit, hba, hnone]

/-- Witness for the amended C4 at the Fahrenheit/Celsius pair and x = 32. -/
theorem unit_conversion_no_reverse_witness :
    convert_unit (convert_unit 32 "°F" "°C") "°C" "°F" = convert_unit 32 "°F" "°C" :=
  unit_conversion_no_reverse "°F" "°C" (fun x => (x - 32) * 5 / 9) rfl 32

/-- C10: when the reading type has a (non-empty) standard unit in the
catalog, the published measurement is labelled with that standard unit —
even when no converter is registered for the hub unit, in which case the
numeric value passes through unconverted (up to the 4-decimal rounding
applied to every value); only when the reading type has no standard unit
is the hub unit published. -/
theorem standard_unit_labelling (reading_type ha_unit : String) (value : ℚ) :
    (get_standard_unit reading_type ≠ "" →
      (transformUnitValue reading_type ha_unit value).2 = get_standard_unit reading_type ∧
      (UNIT_CONVERSIONS.lookup (ha_unit, get_standard_unit reading_type) = none →
        (transformUnitValue reading_type ha_unit value).1 = roundTo4 value)) ∧
    (get_standard_unit reading_type = "" →
      (transformUnitValue reading_type ha_unit value).2 = ha_unit) := by
  constructor
  · intro hstd
    refine ⟨by simp [transformUnitValue, hstd], fun hnone => ?_⟩
    by_cases hcond : ha_unit ≠ "" ∧ get_standard_unit reading_type ≠ "" ∧
        ha_unit ≠ get_standard_unit reading_type
    · simp [transformUnitValue, hcond, convert_unit, hcond.2.2, hnone]
    · simp [transformUnitValue, hcond]
  · intro hstd
    simp [transformUnitValue, hstd]

/-- Witness for C10: reading type `temperature` has standard unit `°C`;
with the unregistered hub unit `X` the value is published unconverted but
labelled `°C`. -/
theorem standard_unit_labelling_witness :
    (transformUnitValue "temperature" "X" 3).2 = get_standard_unit "temperature" ∧
      (transformUnitValue "temperature" "X" 3).1 = roundTo4 3 :=
  ⟨((standard_unit_labelling "temperature" "X" 3).1 (by decide)).1,
   ((standard_unit_labelling "temperature" "X" 3).1 (by decide)).2 rfl⟩

end WeSense

namespace WeSense

/-- Result of a successful reverse-geocode lookup
(`utils/geocoding.py::reverse_geocode`), already mapped to the country and
subdivision codes that `get_location_info` extracts. -/
structure GeoResult where
  country_code : String
  subdivision_code : String

/-- The reverse geocoder as an oracle: `reverse_geocode(lat, lon)` returns
`none` when the library is unavailable, the lookup yields nothing, or an
exception is caught — the Python function catches every exception and
returns `None`, so the embedding is total and failure never propagates. -/
abbrev Geocoder := ℚ → ℚ → Option GeoResult

/-- The country/subdivision pair `get_location_info` returns. -/
structure GeoInfo where
  country_code : String
  subdivision_code : String

/-- `get_location_info` from `utils/geocoding.py`: the geocoded codes when
reverse geocoding succeeds, otherwise the supplied defaults. -/
def get_location_info (geocode : Geocoder) (latitude longitude : ℚ)
    (default_country_code default_subdivision_code : String) : GeoInfo :=
  match geocode latitude longitude with
  | some result => ⟨result.country_code, result.subdivision_code⟩
  | none => ⟨default_country_code, default_subdivision_code⟩

/-- `LocationDefault` dataclass from `config.py`. -/
structure LocationDefault where
  latitude : ℚ
  longitude : ℚ
  altitude : ℚ
  country_code : String
  subdivision_code : String
  deployment_type : String := "INDOOR"

/-- `LocationOverride` dataclass from `config.py`. -/
structure LocationOverride where
  latitude : ℚ
  longitude : ℚ
  altitude : Option ℚ := none
  country_code : Option String := none
  subdivision_code : Option String := none
  deployment_type : Option String := none
  node_name : Option String := none

/-- `LocationConfig` dataclass from `config.py`; the overrides dict
becomes an association list keyed by entity id. -/
structure LocationConfig where
  default : LocationDefault
  use_ha_zones : Bool := true
  overrides : List (String × LocationOverride) := []

/-- The location dict `Transformer._get_location` returns. -/
structure LocationRecord where
  latitude : ℚ
  longitude : ℚ
  altitude : ℚ
  country_code : String
  subdivision_code : String
  deployment_type : String

/-- Python truthiness of an optional string (`None` and `""` are falsy). -/
def optStrTruthy (s : Option String) : Bool :=
  (s.getD "") ≠ ""

/-- `Transformer._get_location`: override first (with geocoding when the
override does not carry both country and subdivision), then
attribute-embedded coordinates (always geocoded), then the configured
default verbatim. -/
def getLocation (geocode : Geocoder) (loc : LocationConfig) (entity_id : String)
    (attributes : Attributes) : LocationRecord :=
  let defaults := loc.default
  match loc.overrides.lookup entity_id with
  | some ov =>
    let lat := ov.latitude
    let lon := ov.longitude
    let alt := ov.altitude.getD defaults.altitude
    let deployment :=
      if optStrTruthy ov.deployment_type then ov.deployment_type.getD ""
      else defaults.deployment_type
    if optStrTruthy ov.country_code ∧ optStrTruthy ov.subdivision_code then
      ⟨lat, lon, alt, ov.country_code.getD "", ov.subdivision_code.getD "", deployment⟩
    else
      let geo := get_location_info geocode lat lon
        defaults.country_code defaults.subdivision_code
      ⟨lat, lon, alt, geo.country_code, geo.subdivision_code, deployment⟩
  | none =>
    match attributes.latitude, attributes.longitude with
    | some lat, some lon =>
      let alt := attributes.altitude.getD defaults.altitude
      let geo := get_location_info geocode lat lon
        defaults.country_code defaults.subdivision_code
      ⟨lat, lon, alt, geo.country_code, geo.subdivision_code,
        defaults.deployment_type⟩
    | _, _ =>
      ⟨defaults.latitude, defaults.longitude, defaults.altitude,
        defaults.country_code, defaults.subdivision_code, defaults.deployment_type⟩

end WeSense

namespace WeSense

/-- C5: when an entity's override does not specify both a country code and
a subdivision code, the resolved location keeps the override's
coordinates and takes its codes from reverse geocoding at those
coordinates; and whenever geocoding yields nothing, the codes are exactly
the configured defaults (so they are never empty when the defaults are
not). Geocoding failure is the oracle's `none`, which the resolver always
absorbs — no error propagates. -/
theorem override_location_fallback (geocode : Geocoder) (loc : LocationConfig)
    (entity_id : String) (attributes : Attributes) (ov : LocationOverride)
    (hov : loc.overrides.lookup entity_id = some ov)
    (hmiss : ¬(optStrTruthy ov.country_code ∧ optStrTruthy ov.subdivision_code)) :
    (getLocation geocode loc entity_id attributes).latitude = ov.latitude ∧
    (getLocation geocode loc entity_id attributes).longitude = ov.longitude ∧
    (getLocation geocode loc entity_id attributes).country_code =
      (get_location_info geocode ov.latitude ov.longitude
        loc.default.country_code loc.default.subdivision_code).country_code ∧
    (getLocation geocode loc entity_id attributes).subdivision_code =
      (get_location_info geocode ov.latitude ov.longitude
        loc.default.country_code loc.default.subdivision_code).subdivision_code ∧
    (geocode ov.latitude ov.longitude = none →
      (getLocation geocode loc entity_id attributes).country_code =
          loc.default.country_code ∧
        (getLocation geocode loc entity_id attributes).subdivision_code =
          loc.default.subdivision_code) := by
  refine ⟨?_, ?_, ?_, ?_, fun hnone => ?_⟩ <;>
    simp [getLocation, hov, hmiss, get_location_info, *]

/-- Concrete location configuration for the C5 witness: an override with
coordinates only, defaults carrying non-empty codes. -/
def c5Loc : LocationConfig :=
  { default :=
      { latitude := -41.2, longitude := 174.7, altitude := 0
        country_code := "nz", subdivision_code := "wgn" }
    overrides := [("sensor.x", { latitude := 1, longitude := 2 })] }

/-- Witness for C5: with a geocoder that always fails, the override
lacking codes resolves to the default `nz`/`wgn`, at the override's
coordinates. -/
theorem override_location_fallback_witness :
    (getLocation (fun _ _ => none) c5Loc "sensor.x" {}).latitude = 1 ∧
    (getLocation (fun _ _ => none) c5Loc "sensor.x" {}).longitude = 2 ∧
    (getLocation (fun _ _ => none) c5Loc "sensor.x" {}).country_code =
      (get_location_info (fun _ _ => none) 1 2 "nz" "wgn").country_code ∧
    (getLocation (fun _ _ => none) c5Loc "sensor.x" {}).subdivision_code =
      (get_location_info (fun _ _ => none) 1 2 "nz" "wgn").subdivision_code ∧
    ((fun (_ _ : ℚ) => (none : Option GeoResult)) 1 2 = none →
      (getLocation (fun _ _ => none) c5Loc "sensor.x" {}).country_code = "nz" ∧
        (getLocation (fun _ _ => none) c5Loc "sensor.x" {}).subdivision_code = "wgn") :=
  override_location_fallback (fun _ _ => none) c5Loc "sensor.x" {}
    { latitude := 1, longitude := 2 } rfl (by decide)

end WeSense

namespace WeSense

/-- `FUTURE_TIMESTAMP_TOLERANCE` from `main.py`. -/
def FUTURE_TIMESTAMP_TOLERANCE : ℤ := 30

/-- Where a reading leaves (or survives) the guard section of
`HomeAssistantIngester._handle_state_change` after a successful
transform. -/
inductive GuardOutcome where
  | futureTimestamp
  | missingLocation
  | processed
deriving DecidableEq

/-- The fields of a transformed reading the orchestrator guards read. -/
structure TransformedMeta where
  timestamp : ℤ
  latitude : ℚ
  longitude : ℚ

/-- The guard chain of `_handle_state_change` (main.py lines 255–289):
first the future-timestamp guard (`time_delta > FUTURE_TIMESTAMP_TOLERANCE`),
then the null-location guard (`lat == 0.0 and lon == 0.0`); a reading
passing both is processed. -/
def handleGuards (t : TransformedMeta) (current_time : ℤ) : GuardOutcome :=
  if t.timestamp - current_time > FUTURE_TIMESTAMP_TOLERANCE then
    .futureTimestamp
  else if t.latitude = 0 ∧ t.longitude = 0 then
    .missingLocation
  else
    .processed

/-- C6: the future-timestamp guard rejects a transformed reading iff its
timestamp exceeds the current time by strictly more than 30 seconds; a
reading at now+31s is rejected, and readings at now+29s and exactly
now+30s are accepted (and, with a non-null location, processed). -/
theorem future_timestamp_guard (t : TransformedMeta) (now : ℤ) :
    (handleGuards t now = .futureTimestamp ↔ t.timestamp - now > 30) ∧
    handleGuards ⟨now + 31, 1, 1⟩ now = .futureTimestamp ∧
    handleGuards ⟨now + 29, 1, 1⟩ now = .processed ∧
    handleGuards ⟨now + 30, 1, 1⟩ now = .processed := by
  refine ⟨?_, ?_, ?_, ?_⟩
  · by_cases hc : t.timestamp - now > 30
    · simp [handleGuards, FUTURE_TIMESTAMP_TOLERANCE, hc]
    · simp only [handleGuards, FUTURE_TIMESTAMP_TOLERANCE]
      rw [if_neg (by omega : ¬(t.timestamp - now > (30 : ℤ)))]
      simp only [hc, iff_false]
      split <;> simp
  · simp [handleGuards, FUTURE_TIMESTAMP_TOLERANCE,
      show now + 31 - now > (30 : ℤ) by omega]
  · simp [handleGuards, FUTURE_TIMESTAMP_TOLERANCE,
      show ¬(now + 29 - now > (30 : ℤ)) by omega]
  · simp [handleGuards, FUTURE_TIMESTAMP_TOLERANCE,
      show ¬(now + 30 - now > (30 : ℤ)) by omega]

/-- C7: for a reading that passed the future-timestamp guard, the
null-location guard rejects iff the resolved latitude and longitude are
both exactly zero; (0, 0) is rejected and (0, 5) is processed. -/
theorem null_location_guard (t : TransformedMeta) (now : ℤ)
    (hts : t.timestamp - now ≤ 30) :
    (handleGuards t now = .missingLocation ↔ t.latitude = 0 ∧ t.longitude = 0) ∧
    handleGuards ⟨t.timestamp, 0, 0⟩ now = .missingLocation ∧
    handleGuards ⟨t.timestamp, 0, 5⟩ now = .processed := by
  have hts' : ¬(30 < t.timestamp - now) := by omega
  refine ⟨?_, ?_, ?_⟩
  · simp only [handleGuards, FUTURE_TIMESTAMP_TOLERANCE]
    rw [if_neg hts']
    by_cases hl : t.latitude = 0 ∧ t.longitude = 0 <;> simp [hl]
  · simp [handleGuards, FUTURE_TIMESTAMP_TOLERANCE, hts']
  · simp [handleGuards, FUTURE_TIMESTAMP_TOLERANCE, hts']

/-- Witness for C7 at a concrete reading: timestamp equal to now, located
at (0, 3). -/
theorem null_location_guard_witness :
    (handleGuards ⟨100, 0, 3⟩ 100 = .missingLocation ↔ (0 : ℚ) = 0 ∧ (3 : ℚ) = 0) ∧
    handleGuards ⟨100, 0, 0⟩ 100 = .missingLocation ∧
    handleGuards ⟨100, 0, 5⟩ 100 = .processed :=
  null_location_guard ⟨100, 0, 3⟩ 100 (by norm_num)

end WeSense

namespace WeSense

/-- Python `str.upper()`, character-wise (ASCII). -/
def strToUpper (s : String) : String :=
  ⟨s.data.map Char.toUpper⟩

/-- `DEPLOYMENT_TYPES` from `config.py`: the valid deployment types. -/
def DEPLOYMENT_TYPES : List String := ["INDOOR", "OUTDOOR", "MIXED"]

/-- `load_config`'s handling of the default deployment type
(config.py line 207): `loc_default.get("deployment_type", "INDOOR").upper()`. -/
def loadDefaultDeployment (raw : Option String) : String :=
  strToUpper (raw.getD "INDOOR")

/-- `load_config`'s handling of an override deployment type
(config.py line 217): `override.get("deployment_type", "").upper() or None`. -/
def loadOverrideDeployment (raw : Option String) : Option String :=
  let u := strToUpper (raw.getD "")
  if u = "" then none else some u

/-- The slice of `Config` that `validate_config` reads. -/
structure ConfigModel where
  homeassistant_url : String
  homeassistant_access_token : String
  filters : FilterConfig
  location : LocationConfig

/-- `validate_config` from `config.py`: raises `ValueError` (modelled as
`Except.error`) for a missing hub URL or token and for a default
deployment type outside `DEPLOYMENT_TYPES`; otherwise returns the list of
warnings (warning texts abbreviated). Per-entity override deployment
types are never examined. -/
def validate_config (config : ConfigModel) : Except String (List String) :=
  if config.homeassistant_url = "" then
    .error "Home Assistant URL is required"
  else if config.homeassistant_access_token = "" then
    .error "Home Assistant access token is required"
  else
    let w1 :=
      if config.location.default.latitude = 0 ∧ config.location.default.longitude = 0
      then ["default location is (0, 0)"] else []
    if ¬DEPLOYMENT_TYPES.contains config.location.default.deployment_type then
      .error ("Invalid deployment_type " ++ config.location.default.deployment_type)
    else
      let w2 :=
        if config.filters.mode = "allowlist" ∧ config.filters.include_entities.isEmpty
        then ["allowlist mode but no entities included"] else []
      let w3 :=
        if config.filters.exclude_entity_patterns.isEmpty
        then ["no exclude_entity_patterns configured"] else []
      .ok (w1 ++ w2 ++ w3)

/-- A configuration whose per-entity override carries the invalid
deployment type `garden` (upper-cased to `GARDEN` at load), while the
default deployment type is valid. -/
def c9Config : ConfigModel :=
  { homeassistant_url := "http://ha.local:8123"
    homeassistant_access_token := "token"
    filters :=
      { exclude_entity_patterns := [fun s => s.data.any (fun c => c.toLower == 'w')] }
    location :=
      { default :=
          { latitude := 1, longitude := 2, altitude := 0
            country_code := "nz", subdivision_code := "wgn"
            deployment_type := loadDefaultDeployment (some "indoor") }
        overrides :=
          [("sensor.x",
            { latitude := 1, longitude := 2
              deployment_type := loadOverrideDeployment (some "garden") })] } }

/-- C9 is false as stated: a configuration whose override deployment type
is `GARDEN` — not one of the three enum values — passes `validate_config`
without error, because only the default record's deployment type is
checked; startup is not aborted. -/
theorem c9_counterexample :
    (∃ ov, c9Config.location.overrides.lookup "sensor.x" = some ov ∧
        ov.deployment_type = some "GARDEN") ∧
      DEPLOYMENT_TYPES.contains "GARDEN" = false ∧
      (validate_config c9Config).isOk = true := by
  refine ⟨⟨_, rfl, rfl⟩, rfl, ?_⟩
  decide

/-- C9 (amended): deployment types are upper-cased at load (both the
default and any override), but only the default location record's
deployment type is validated: with a non-empty hub URL and token,
`validate_config` succeeds iff the default deployment type is one of
INDOOR/OUTDOOR/MIXED, regardless of every override's deployment type; an
invalid default aborts startup, an invalid override value is accepted. -/
theorem deployment_type_validation (c : ConfigModel)
    (hurl : c.homeassistant_url ≠ "") (htok : c.homeassistant_access_token ≠ "") :
    (validate_config c).isOk = true ↔
      c.location.default.deployment_type ∈ DEPLOYMENT_TYPES := by
  by_cases hd : c.location.default.deployment_type ∈ DEPLOYMENT_TYPES <;>
    simp [validate_config, hurl, htok, hd, Except.isOk, Except.toBool]

/-- Witness for the amended C9 at the concrete configuration `c9Config`
(valid default `INDOOR`, invalid override `GARDEN`). -/
theorem deployment_type_validation_witness :
    (validate_config c9Config).isOk = true ↔
      c9Config.location.default.deployment_type ∈ DEPLOYMENT_TYPES :=
  deployment_type_validation c9Config (by decide) (by decide)

end WeSense
